import Mathlib

/-!
Verification of the pathsim-docs build system (scripts/build.py and its
helpers in scripts/lib/).

Python strings are modelled as lists of characters (`Str`); Python's
`str` methods used by the code are translated to executable functions on
`Str`.  File-system state is modelled explicitly: a directory listing is
a list of (name, is_dir) entries, an absent directory is `none`, and a
version directory's files are optional parsed contents.
-/

/-- Python string, modelled as its character sequence. -/
abbrev Str := List Char

/-- Character data of a Lean string literal, used to write concrete `Str` values. -/
def str (s : String) : Str := s.data

/-! ## scripts/lib/git.py -/

/-- Longest all-digit prefix of a string together with the rest
(the `(\d+)` regex groups used by `parse_version`). -/
def takeDigits : Str → Str × Str
  | [] => ([], [])
  | c :: cs =>
    if c.isDigit then
      let p := takeDigits cs
      (c :: p.1, p.2)
    else ([], c :: cs)

/-- Numeric value of a digit string (`int(...)` applied to a regex group). -/
def digitsToNat (ds : Str) : Nat :=
  ds.foldl (fun n c => 10 * n + (c.toNat - 48)) 0

/-- The regex match `^v(\d+)\.(\d+)\.(\d+)$` from `parse_version` in lib/git.py:
returns the three numeric groups when the whole string matches. -/
def matchVersionTag : Str → Option (Nat × Nat × Nat)
  | 'v' :: rest =>
    let p1 := takeDigits rest
    match p1.1, p1.2 with
    | [], _ => none
    | _ :: _, '.' :: r2 =>
      let p2 := takeDigits r2
      match p2.1, p2.2 with
      | [], _ => none
      | _ :: _, '.' :: r4 =>
        let p3 := takeDigits r4
        match p3.1, p3.2 with
        | _ :: _, [] => some (digitsToNat p1.1, digitsToNat p2.1, digitsToNat p3.1)
        | _, _ => none
      | _ :: _, _ => none
    | _ :: _, _ => none
  | _ => none

/-- `parse_version` from lib/git.py: `(major, minor, patch)`, with `(0, 0, 0)`
for tags that do not match the `vX.Y.Z` pattern. -/
def parse_version (tag : Str) : Nat × Nat × Nat :=
  (matchVersionTag tag).getD (0, 0, 0)

/-- The regex match `^(\d+)\.(\d+)$` from `parse_minor_version` in lib/git.py. -/
def matchMinorVersion (s : Str) : Option (Nat × Nat) :=
  let p1 := takeDigits s
  match p1.1, p1.2 with
  | [], _ => none
  | _ :: _, '.' :: r2 =>
    let p2 := takeDigits r2
    match p2.1, p2.2 with
    | _ :: _, [] => some (digitsToNat p1.1, digitsToNat p2.1)
    | _, _ => none
  | _ :: _, _ => none

/-- `parse_minor_version` from lib/git.py, `(0, 0)` on mismatch. -/
def parse_minor_version (v : Str) : Nat × Nat :=
  (matchMinorVersion v).getD (0, 0)

/-- `version_gte` from lib/git.py: Python tuple comparison
`parse_minor_version(version) >= parse_minor_version(min_version)`. -/
def version_gte (version minVersion : Str) : Bool :=
  let a := parse_minor_version version
  let b := parse_minor_version minVersion
  decide (b.1 < a.1) || (a.1 == b.1 && decide (b.2 ≤ a.2))

/-- Python `str(n)` for a natural number (decimal digits). -/
def natToStr (n : Nat) : Str := Nat.toDigits 10 n

/-- The f-string `f"{major}.{minor}"` used by `get_minor_zero_tags`. -/
def minorStr (major minor : Nat) : Str :=
  natToStr major ++ ('.' :: natToStr minor)

/-- Strict lexicographic order on parsed versions (Python tuple `<`). -/
def versionLtB (a b : Nat × Nat × Nat) : Bool :=
  decide (a.1 < b.1) ||
    (a.1 == b.1 &&
      (decide (a.2.1 < b.2.1) || (a.2.1 == b.2.1 && decide (a.2.2 < b.2.2))))

/-- One step of a stable descending insertion sort keyed by `parse_version`:
the new element goes in front of the first strictly smaller element, after
any element with an equal key. -/
def insertVersionDesc (x : Str) : List Str → List Str
  | [] => [x]
  | y :: ys =>
    if versionLtB (parse_version y) (parse_version x) then x :: y :: ys
    else y :: insertVersionDesc x ys

/-- Python's stable `sorted(l, key=parse_version, reverse=True)`. -/
def sortVersionsDesc (l : List Str) : List Str :=
  l.foldl (fun acc x => insertVersionDesc x acc) []

/-- `get_latest_tag` from lib/git.py: `max(tags, key=parse_version)`
(first maximal element), `None` on an empty list. -/
def get_latest_tag (tags : List Str) : Option Str :=
  match tags with
  | [] => none
  | t :: ts =>
    some (ts.foldl
      (fun best x => if versionLtB (parse_version best) (parse_version x) then x else best) t)

/-- `get_minor_zero_tags` from lib/git.py: the patch-zero tags at or above the
minimum minor version, one per minor version (first occurrence wins), sorted
newest first.  The accumulator pairs the `seen_minors` set with the result list. -/
def get_minor_zero_tags (tags : List Str) (minVersion : Str) : List Str :=
  let step := fun (acc : List Str × List Str) (tag : Str) =>
    let v := parse_version tag
    if v.2.2 != 0 then acc
    else
      let ms := minorStr v.1 v.2.1
      if acc.1.contains ms then acc
      else if !version_gte ms minVersion then acc
      else (ms :: acc.1, acc.2 ++ [tag])
  sortVersionsDesc (tags.foldl step ([], [])).2

/-! ## scripts/build.py: get_versions_to_build -/

/-- Listing of the package output directory `static/{package}`: `none` when the
directory does not exist, otherwise the entries as (name, is_dir) pairs. -/
abbrev DirListing := Option (List (Str × Bool))

/-- `(output_dir / name).exists()`: some entry of the listing has this name. -/
def pathExists (outputDir : DirListing) (name : Str) : Bool :=
  match outputDir with
  | none => false
  | some entries => entries.any (fun e => e.1 == name)

/-- `name.startswith("v")` for directory-entry names. -/
def startsWithV : Str → Bool
  | [] => false
  | c :: _ => c == 'v'

/-- `get_versions_to_build` from scripts/build.py.  `minVersion` is
`MIN_SUPPORTED_VERSIONS.get(package_id, "0.1")` and `outputDir` the listing of
`STATIC_DIR / package_id`.  The iteration over the Python set `historical` is
modelled by iterating the list returned by `get_minor_zero_tags`; since the
build list is re-sorted by `parse_version` before being returned and distinct
milestone tags have distinct keys, the returned value does not depend on the
iteration order of the set. -/
def get_versions_to_build (minVersion : Str) (tags : List Str)
    (outputDir : DirListing) (rebuildAll : Bool) : List Str × List Str :=
  let historical := get_minor_zero_tags tags minVersion
  let toBuildHist := historical.filter fun t => rebuildAll || !pathExists outputDir t
  match get_latest_tag tags with
  | none => (sortVersionsDesc toBuildHist, [])
  | some latestTag =>
    if latestTag.isEmpty then (sortVersionsDesc toBuildHist, [])
    else if rebuildAll || !pathExists outputDir latestTag then
      let toDelete :=
        if !historical.contains latestTag then
          match outputDir with
          | some entries =>
            (entries.filter fun e =>
              e.2 && startsWithV e.1 && !historical.contains e.1 && e.1 != latestTag).map
              Prod.fst
          | none => []
        else []
      (sortVersionsDesc (toBuildHist ++ [latestTag]), toDelete)
    else (sortVersionsDesc toBuildHist, [])

/-! ## Data model for generate_version_indexes (api.json and manifest.json) -/

/-- One method of a class in api.json (`method["name"]`, `method.get("description", "")`). -/
structure ApiMethod where
  name : Str
  description : Str
deriving DecidableEq

/-- One class of a module in api.json. -/
structure ApiClass where
  name : Str
  description : Str
  methods : List ApiMethod
deriving DecidableEq

/-- One module-level function in api.json. -/
structure ApiFunction where
  name : Str
  description : Str
deriving DecidableEq

/-- One module of api.json; `name` is its key in the `modules` mapping, whose
insertion order is preserved by modelling the mapping as a list. -/
structure ApiModule where
  name : Str
  description : Str
  classes : List ApiClass
  functions : List ApiFunction
deriving DecidableEq

/-- One notebook record of manifest.json's `notebooks` list. -/
structure Notebook where
  slug : Str
  title : Str
  description : Str
  category : Str
  tags : List Str
deriving DecidableEq

/-- One entry of search-index.json.  The optional `parentClass` key is present
only on method entries, `tags` only on example entries (defaulted elsewhere). -/
structure SearchEntry where
  type : Str
  name : Str
  description : Str
  path : Str
  packageId : Str
  moduleName : Str
  parentClass : Option Str := none
  tags : List Str := []
deriving DecidableEq

/-- One value of the crossref-index.json mapping. -/
structure CrossrefEntry where
  name : Str
  type : Str
  packageId : Str
  moduleName : Str
  parentClass : Option Str := none
  path : Str
deriving DecidableEq

/-- `module_name.replace('.', '-')` (single-character replacement). -/
def dotToDash (s : Str) : Str := s.map (fun c => if c == '.' then '-' else c)

/-- The f-string `f"{package_id}/{tag}/api"`. -/
def apiBasePath (packageId tag : Str) : Str :=
  packageId ++ '/' :: (tag ++ str "/api")

/-- The f-string `f"{package_id}/{tag}/examples"`. -/
def examplesBasePath (packageId tag : Str) : Str :=
  packageId ++ '/' :: (tag ++ str "/examples")

/-- The module search-index record appended in `generate_version_indexes`. -/
def moduleSearchEntry (packageId apiBase : Str) (m : ApiModule) : SearchEntry :=
  { type := str "module", name := m.name, description := m.description,
    path := apiBase ++ '#' :: dotToDash m.name,
    packageId := packageId, moduleName := m.name }

/-- The module crossref record stored under the module's dotted name. -/
def moduleCrossrefEntry (packageId apiBase : Str) (m : ApiModule) : CrossrefEntry :=
  { name := m.name, type := str "module", packageId := packageId, moduleName := m.name,
    path := apiBase ++ '#' :: dotToDash m.name }

/-- The class search-index record. -/
def classSearchEntry (packageId moduleName apiBase : Str) (cls : ApiClass) : SearchEntry :=
  { type := str "class", name := cls.name, description := cls.description,
    path := apiBase ++ '#' :: cls.name, packageId := packageId, moduleName := moduleName }

/-- The class crossref record (`class_target`), registered under three keys. -/
def classCrossrefEntry (packageId moduleName apiBase : Str) (cls : ApiClass) : CrossrefEntry :=
  { name := cls.name, type := str "class", packageId := packageId, moduleName := moduleName,
    path := apiBase ++ '#' :: cls.name }

/-- The method search-index record; its anchor is `ClassName.method_name`. -/
def methodSearchEntry (packageId moduleName apiBase clsName : Str) (meth : ApiMethod) :
    SearchEntry :=
  { type := str "method", name := meth.name, description := meth.description,
    path := apiBase ++ '#' :: (clsName ++ '.' :: meth.name),
    packageId := packageId, moduleName := moduleName, parentClass := some clsName }

/-- The method crossref record, keyed by `ClassName.method_name`. -/
def methodCrossrefEntry (packageId moduleName apiBase clsName : Str) (meth : ApiMethod) :
    CrossrefEntry :=
  { name := meth.name, type := str "method", packageId := packageId,
    moduleName := moduleName, parentClass := some clsName,
    path := apiBase ++ '#' :: (clsName ++ '.' :: meth.name) }

/-- The function search-index record. -/
def functionSearchEntry (packageId moduleName apiBase : Str) (func : ApiFunction) :
    SearchEntry :=
  { type := str "function", name := func.name, description := func.description,
    path := apiBase ++ '#' :: func.name, packageId := packageId, moduleName := moduleName }

/-- The function crossref record (`func_target`), registered under two keys. -/
def functionCrossrefEntry (packageId moduleName apiBase : Str) (func : ApiFunction) :
    CrossrefEntry :=
  { name := func.name, type := str "function", packageId := packageId,
    moduleName := moduleName, path := apiBase ++ '#' :: func.name }

/-- The example search-index record built from one manifest notebook. -/
def exampleSearchEntry (packageId examplesBase : Str) (nb : Notebook) : SearchEntry :=
  { type := str "example", name := nb.title, description := nb.description,
    path := examplesBase ++ '/' :: nb.slug, packageId := packageId,
    moduleName := nb.category, tags := nb.tags }

/-- Accumulator of `generate_version_indexes`: the `search_items` list and the
`crossref_items` dict, the latter as its ordered sequence of key writes
(Python dict insertion with last-write-wins lookup, see `crossrefLookup`). -/
abbrev IndexAcc := List SearchEntry × List (Str × CrossrefEntry)

/-- Body of the `for method in cls.get("methods", [])` loop. -/
def processMethod (packageId moduleName apiBase clsName : Str) (acc : IndexAcc)
    (meth : ApiMethod) : IndexAcc :=
  (acc.1 ++ [methodSearchEntry packageId moduleName apiBase clsName meth],
   acc.2 ++ [(clsName ++ '.' :: meth.name,
              methodCrossrefEntry packageId moduleName apiBase clsName meth)])

/-- Body of the `for cls in module.get("classes", [])` loop: the class entry,
its three crossref keys, then the methods. -/
def processClass (packageId moduleName apiBase : Str) (acc : IndexAcc) (cls : ApiClass) :
    IndexAcc :=
  let target := classCrossrefEntry packageId moduleName apiBase cls
  let acc1 : IndexAcc :=
    (acc.1 ++ [classSearchEntry packageId moduleName apiBase cls],
     acc.2 ++ [(cls.name, target), (moduleName ++ '.' :: cls.name, target),
               (packageId ++ '.' :: cls.name, target)])
  cls.methods.foldl (processMethod packageId moduleName apiBase cls.name) acc1

/-- Body of the `for func in module.get("functions", [])` loop. -/
def processFunction (packageId moduleName apiBase : Str) (acc : IndexAcc)
    (func : ApiFunction) : IndexAcc :=
  let target := functionCrossrefEntry packageId moduleName apiBase func
  (acc.1 ++ [functionSearchEntry packageId moduleName apiBase func],
   acc.2 ++ [(func.name, target), (moduleName ++ '.' :: func.name, target)])

/-- Body of the `for module_name, module in modules.items()` loop: the module
entry and crossref, then classes (with methods), then functions. -/
def processModule (packageId apiBase : Str) (acc : IndexAcc) (m : ApiModule) : IndexAcc :=
  let acc1 : IndexAcc :=
    (acc.1 ++ [moduleSearchEntry packageId apiBase m],
     acc.2 ++ [(m.name, moduleCrossrefEntry packageId apiBase m)])
  let acc2 := m.classes.foldl (processClass packageId m.name apiBase) acc1
  m.functions.foldl (processFunction packageId m.name apiBase) acc2

/-- The index computation of `generate_version_indexes` in scripts/build.py.
`apiModules` is the `modules` mapping of api.json when that file exists,
`manifestNotebooks` the `notebooks` list of manifest.json when that file
exists.  Returns the search-index list and the crossref write sequence. -/
def generate_version_indexes (packageId tag : Str)
    (apiModules : Option (List ApiModule)) (manifestNotebooks : Option (List Notebook)) :
    IndexAcc :=
  let apiBase := apiBasePath packageId tag
  let examplesBase := examplesBasePath packageId tag
  let acc : IndexAcc := ([], [])
  let acc :=
    match apiModules with
    | some modules => modules.foldl (processModule packageId apiBase) acc
    | none => acc
  match manifestNotebooks with
  | some notebooks =>
    (acc.1 ++ notebooks.map (exampleSearchEntry packageId examplesBase), acc.2)
  | none => acc

/-- Final value of a key in the crossref dict: the last write wins. -/
def crossrefLookup (writes : List (Str × CrossrefEntry)) (key : Str) :
    Option CrossrefEntry :=
  writes.foldl (fun acc w => if w.1 == key then some w.2 else acc) none

/-- The search entries one class contributes, in emission order. -/
def classSearchEntries (packageId moduleName apiBase : Str) (cls : ApiClass) :
    List SearchEntry :=
  classSearchEntry packageId moduleName apiBase cls ::
    cls.methods.map (methodSearchEntry packageId moduleName apiBase cls.name)

/-- The search entries one module contributes, in emission order: the module
entry, then per class the class entry followed by its method entries, then the
function entries. -/
def moduleSearchEntries (packageId apiBase : Str) (m : ApiModule) : List SearchEntry :=
  moduleSearchEntry packageId apiBase m ::
    (m.classes.flatMap (classSearchEntries packageId m.name apiBase) ++
      m.functions.map (functionSearchEntry packageId m.name apiBase))

/-- The crossref writes one class contributes, in write order. -/
def classCrossrefWrites (packageId moduleName apiBase : Str) (cls : ApiClass) :
    List (Str × CrossrefEntry) :=
  (cls.name, classCrossrefEntry packageId moduleName apiBase cls) ::
    (moduleName ++ '.' :: cls.name, classCrossrefEntry packageId moduleName apiBase cls) ::
    (packageId ++ '.' :: cls.name, classCrossrefEntry packageId moduleName apiBase cls) ::
    cls.methods.map (fun meth =>
      (cls.name ++ '.' :: meth.name,
       methodCrossrefEntry packageId moduleName apiBase cls.name meth))

/-- The crossref writes one module contributes, in write order. -/
def moduleCrossrefWrites (packageId apiBase : Str) (m : ApiModule) :
    List (Str × CrossrefEntry) :=
  (m.name, moduleCrossrefEntry packageId apiBase m) ::
    (m.classes.flatMap (classCrossrefWrites packageId m.name apiBase) ++
      m.functions.flatMap (fun func =>
        [(func.name, functionCrossrefEntry packageId m.name apiBase func),
         (m.name ++ '.' :: func.name, functionCrossrefEntry packageId m.name apiBase func)]))

/-- Reconstruction of an API entry's path from the entry's own fields and the
anchor rule: module anchors replace `.` with `-`, method anchors are
`ClassName.method_name`, class and function anchors are the bare name; the
path is `{packageId}/{tag}/api#{anchor}`. -/
def reconstructApiPath (tag : Str) (e : SearchEntry) : Str :=
  let anchor :=
    if e.type == str "module" then dotToDash e.moduleName
    else if e.type == str "method" then (e.parentClass.getD []) ++ '.' :: e.name
    else e.name
  apiBasePath e.packageId tag ++ '#' :: anchor

/-! ## Version directory state, build_version and should_regenerate_embeddings -/

/-- Parsed contents of the files of one version directory
`static/{package}/{tag}` that the index generation touches; `none` means the
file does not exist. -/
structure DirState where
  api : Option (List ApiModule)
  manifest : Option (List Notebook)
  searchIndex : Option (List SearchEntry)
  crossref : Option (List (Str × CrossrefEntry))
deriving DecidableEq

/-- The write behaviour of `generate_version_indexes`: it reads api.json and
manifest.json from the version directory and unconditionally writes both
search-index.json and crossref-index.json. -/
def generate_version_indexes_write (packageId tag : Str) (st : DirState) : DirState :=
  let out := generate_version_indexes packageId tag st.api st.manifest
  { st with searchIndex := some out.1, crossref := some out.2 }

/-- Python string `<` (lexicographic by code point, a proper prefix is smaller),
used by the notebook sort key. -/
def strLtB : Str → Str → Bool
  | [], [] => false
  | [], _ :: _ => true
  | _ :: _, [] => false
  | a :: as, b :: bs =>
    if a < b then true else if b < a then false else strLtB as bs

/-- Strict comparison of the sort key
`(category_order.get(n["category"], 99), n["title"])` from
`generate_version_manifest` in lib/notebooks.py. -/
def notebookKeyLt (categoryOrder : List (Str × Nat)) (a b : Notebook) : Bool :=
  let ka := (categoryOrder.lookup a.category).getD 99
  let kb := (categoryOrder.lookup b.category).getD 99
  decide (ka < kb) || (ka == kb && strLtB a.title b.title)

/-- One step of the stable ascending insertion sort on notebooks. -/
def insertNotebookAsc (co : List (Str × Nat)) (x : Notebook) :
    List Notebook → List Notebook
  | [] => [x]
  | y :: ys =>
    if notebookKeyLt co x y then x :: y :: ys else y :: insertNotebookAsc co x ys

/-- Python's stable `sorted(notebooks, key=...)`. -/
def sortNotebooks (co : List (Str × Nat)) (l : List Notebook) : List Notebook :=
  l.foldl (fun acc x => insertNotebookAsc co x acc) []

/-- The `notebooks` component of `generate_version_manifest` in
lib/notebooks.py: the notebook metadata sorted by (category order, title);
`co` is the `category_order` mapping built from `CATEGORIES`. -/
def generate_version_manifest (co : List (Str × Nat)) (notebooks : List Notebook) :
    List Notebook :=
  sortNotebooks co notebooks

/-- Inputs of one `build_version` run that come from the checked-out source
tree: the extractor's module data and the copied notebook metadata. -/
structure SourceContent where
  apiModules : List ApiModule
  notebooks : List Notebook
deriving DecidableEq

/-- The file-producing part of `build_version` in scripts/build.py: write
api.json only when some modules were extracted, always write manifest.json
with the sorted notebooks, then regenerate both indexes from the directory. -/
def build_version_files (packageId tag : Str) (categoryOrder : List (Str × Nat))
    (src : SourceContent) (st : DirState) : DirState :=
  let st1 := if src.apiModules.isEmpty then st else { st with api := some src.apiModules }
  let st2 :=
    { st1 with manifest := some (generate_version_manifest categoryOrder src.notebooks) }
  generate_version_indexes_write packageId tag st2

/-- `should_regenerate_embeddings` inputs from lib/embeddings.py: existence and
last-modified time of search-index.json and embeddings-index.json (`none`
when the file is absent; timestamps modelled as integers, only their order
matters). -/
structure VersionDirStat where
  searchIndexMtime : Option Int
  embeddingsIndexMtime : Option Int
deriving DecidableEq

/-- `should_regenerate_embeddings` from lib/embeddings.py. -/
def should_regenerate_embeddings (d : VersionDirStat) : Bool :=
  match d.searchIndexMtime with
  | none => false
  | some searchMtime =>
    match d.embeddingsIndexMtime with
    | none => true
    | some embeddingsMtime => decide (searchMtime > embeddingsMtime)

/-! ## Repository checkout state across a package build (build_package) -/

/-- Outcome of one `build_version` call for one tag: the tag checkout fails
(returns False before any stage), some stage raises and the top-level handler
catches it (returns False), or the build succeeds. -/
inductive StageOutcome where
  | checkoutFailed
  | stageError
  | success
deriving DecidableEq

/-- The current checkout of the package's source repository. -/
structure RepoState where
  branch : Str
deriving DecidableEq

/-- `checkout_main` from lib/git.py: return the repository to its main branch. -/
def checkout_main (_st : RepoState) : RepoState :=
  { branch := str "main" }

/-- The repository-state behaviour of `build_version`: a dry run touches
nothing; otherwise the tag is checked out (on success the branch is the tag)
and stage errors after checkout are caught, leaving the checkout at the tag. -/
def build_version_repo (tag : Str) (outcome : StageOutcome) (dryRun : Bool)
    (st : RepoState) : RepoState × Bool :=
  if dryRun then (st, true)
  else
    match outcome with
    | .checkoutFailed => (st, false)
    | .stageError => ({ branch := tag }, false)
    | .success => ({ branch := tag }, true)

/-- The per-tag loop of `build_package` in scripts/build.py over its toBuild
list, followed by the unconditional `checkout_main` when not in dry-run mode;
returns the final repository state and the count of successful builds. -/
def build_package (toBuild : List Str) (outcomes : Str → StageOutcome) (dryRun : Bool)
    (st : RepoState) : RepoState × Nat :=
  let r := toBuild.foldl
    (fun (acc : RepoState × Nat) tag =>
      let s := build_version_repo tag (outcomes tag) dryRun acc.1
      (s.1, acc.2 + (if s.2 then 1 else 0)))
    (st, 0)
  if dryRun then r else (checkout_main r.1, r.2)

-- ===========================================================================
-- Theorems
-- ===========================================================================

theorem mem_insertVersionDesc {a x : Str} {l : List Str} :
    a ∈ insertVersionDesc x l ↔ a = x ∨ a ∈ l := by
  induction l with
  | nil => simp [insertVersionDesc]
  | cons y ys ih =>
    simp only [insertVersionDesc]
    split
    · simp [List.mem_cons]
    · simp only [List.mem_cons, ih]
      tauto

theorem mem_sortVersionsDesc_aux {a : Str} (l : List Str) (acc : List Str) :
    a ∈ l.foldl (fun acc x => insertVersionDesc x acc) acc ↔ a ∈ l ∨ a ∈ acc := by
  induction l generalizing acc with
  | nil => simp
  | cons x xs ih =>
    simp only [List.foldl_cons, ih, mem_insertVersionDesc, List.mem_cons]
    tauto

theorem mem_sortVersionsDesc {a : Str} {l : List Str} :
    a ∈ sortVersionsDesc l ↔ a ∈ l := by
  simp [sortVersionsDesc, mem_sortVersionsDesc_aux]

/-- C1: for tags [v0.5.0, v0.6.0, v0.6.3, v0.7.0], minimum minor 0.5 and no
existing version directories, the claimed plan output
([v0.7.0, v0.6.0, v0.5.0], []) is not what `get_versions_to_build` returns:
the latest tag v0.7.0 is scheduled twice. -/
theorem c1_plan_scenario_counterexample :
    get_versions_to_build (str "0.5")
        [str "v0.5.0", str "v0.6.0", str "v0.6.3", str "v0.7.0"] (some []) false
      ≠ ([str "v0.7.0", str "v0.6.0", str "v0.5.0"], []) := by
  decide

/-- C1 (amended): for tags [v0.5.0, v0.6.0, v0.6.3, v0.7.0], minimum minor 0.5
and no existing version directories, the plan returns
toBuild = [v0.7.0, v0.7.0, v0.6.0, v0.5.0] (newest first, with the latest tag
v0.7.0 appearing twice: once as a missing milestone and once as the latest
tag) and toDelete = []; the patch tag v0.6.3 is never scheduled. -/
theorem c1_plan_scenario :
    get_versions_to_build (str "0.5")
        [str "v0.5.0", str "v0.6.0", str "v0.6.3", str "v0.7.0"] (some []) false
      = ([str "v0.7.0", str "v0.7.0", str "v0.6.0", str "v0.5.0"], []) ∧
    str "v0.6.3" ∉ (get_versions_to_build (str "0.5")
        [str "v0.5.0", str "v0.6.0", str "v0.6.3", str "v0.7.0"] (some []) false).1 := by
  decide

/-- C2: counterexample to the claim that whenever the latest tag is not a
milestone every existing non-milestone version directory other than the latest
is scheduled for deletion.  With tags [v0.1.1, v0.1.2] and both already on
disk, the latest tag v0.1.2 is not a milestone and v0.1.1 is an existing
non-milestone directory different from it, yet the plan deletes nothing
(the stale-directory scan only runs when the latest tag is itself being
built). -/
theorem c2_delete_stale_counterexample :
    get_latest_tag [str "v0.1.1", str "v0.1.2"] = some (str "v0.1.2") ∧
    (get_minor_zero_tags [str "v0.1.1", str "v0.1.2"] (str "0.1")).contains
      (str "v0.1.2") = false ∧
    (str "v0.1.1", true) ∈ [(str "v0.1.1", true), (str "v0.1.2", true)] ∧
    startsWithV (str "v0.1.1") = true ∧
    (get_minor_zero_tags [str "v0.1.1", str "v0.1.2"] (str "0.1")).contains
      (str "v0.1.1") = false ∧
    str "v0.1.1" ≠ str "v0.1.2" ∧
    get_versions_to_build (str "0.1") [str "v0.1.1", str "v0.1.2"]
        (some [(str "v0.1.1", true), (str "v0.1.2", true)]) false = ([], []) := by
  decide

/-- C2 (amended): when the latest tag is scheduled to build (it is missing on
disk, or rebuildAll is set) and it is not a milestone, the plan schedules for
deletion every existing directory entry whose name starts with "v", is not a
milestone, and differs from the latest tag. -/
theorem c2_delete_stale (minVersion : Str) (tags : List Str)
    (entries : List (Str × Bool)) (rebuildAll : Bool) (latestTag name : Str)
    (hlt : get_latest_tag tags = some latestTag)
    (hne : latestTag.isEmpty = false)
    (hbuild : (rebuildAll || !pathExists (some entries) latestTag) = true)
    (hnotms : (get_minor_zero_tags tags minVersion).contains latestTag = false)
    (hmem : (name, true) ∈ entries)
    (hv : startsWithV name = true)
    (hnm : (get_minor_zero_tags tags minVersion).contains name = false)
    (hneq : name ≠ latestTag) :
    name ∈ (get_versions_to_build minVersion tags (some entries) rebuildAll).2 := by
  simp only [get_versions_to_build, hlt, hne, hbuild, hnotms]
  simp only [Bool.not_false, if_true, Bool.true_and, if_false]
  refine List.mem_map.mpr ⟨(name, true), List.mem_filter.mpr ⟨hmem, ?_⟩, rfl⟩
  have hnm' : name ∉ get_minor_zero_tags tags minVersion := fun h => by
    have hc : (get_minor_zero_tags tags minVersion).contains name = true :=
      List.elem_iff.mpr h
    rw [hnm] at hc
    exact Bool.false_ne_true hc
  simp [hv, hnm', hneq]

/-- C2 witness: concrete instance of the amended deletion property. -/
theorem c2_delete_stale_witness :
    str "v0.1.1" ∈ (get_versions_to_build (str "0.1") [str "v0.1.1", str "v0.1.2"]
        (some [(str "v0.1.1", true)]) false).2 :=
  c2_delete_stale (str "0.1") [str "v0.1.1", str "v0.1.2"]
    [(str "v0.1.1", true)] false (str "v0.1.2") (str "v0.1.1")
    (by decide) (by decide) (by decide) (by decide) (by decide) (by decide)
    (by decide) (by decide)

/-- C3: for every tag set and every state of the package output directory, no
tag is scheduled both for building and for deletion by `get_versions_to_build`. -/
theorem c3_build_delete_disjoint (minVersion : Str) (tags : List Str)
    (outputDir : DirListing) (rebuildAll : Bool) (t : Str)
    (hb : t ∈ (get_versions_to_build minVersion tags outputDir rebuildAll).1) :
    t ∉ (get_versions_to_build minVersion tags outputDir rebuildAll).2 := by
  intro hd
  simp only [get_versions_to_build] at hb hd
  set historical := get_minor_zero_tags tags minVersion with hhist
  cases hlt : get_latest_tag tags with
  | none => rw [hlt] at hd; simp at hd
  | some latestTag =>
    rw [hlt] at hb hd
    by_cases hemp : latestTag.isEmpty
    · simp only [hemp, if_true] at hd; simp at hd
    · simp only [hemp, if_false, Bool.false_eq_true] at hb hd
      by_cases hcond : (rebuildAll || !pathExists outputDir latestTag) = true
      · simp only [hcond, if_true] at hb hd
        by_cases hms : (!historical.contains latestTag) = true
        · simp only [hms, if_true] at hd
          cases outputDir with
          | none => simp at hd
          | some entries =>
            simp only [List.mem_map] at hd
            obtain ⟨e, hef, hname⟩ := hd
            have hp := (List.mem_filter.mp hef).2
            simp only [Bool.and_eq_true, bne_iff_ne, Bool.not_eq_true'] at hp
            rw [hname] at hp
            rw [mem_sortVersionsDesc, List.mem_append] at hb
            rcases hb with hb | hb
            · have hmem2 := (List.mem_filter.mp hb).1
              have hc : historical.contains t = true := List.elem_iff.mpr hmem2
              rw [hp.1.2] at hc
              exact Bool.false_ne_true hc
            · simp only [List.mem_singleton] at hb
              exact hp.2 hb
        · simp only [hms, if_false] at hd; simp at hd
      · simp only [hcond, if_false] at hd; simp at hd

/-- C3 witness: concrete instance of the disjointness property. -/
theorem c3_build_delete_disjoint_witness :
    str "v0.1.2" ∉ (get_versions_to_build (str "0.1") [str "v0.1.1", str "v0.1.2"]
        (some [(str "v0.1.1", true)]) false).2 :=
  c3_build_delete_disjoint (str "0.1") [str "v0.1.1", str "v0.1.2"]
    (some [(str "v0.1.1", true)]) false (str "v0.1.2") (by decide)

theorem foldl_processMethod (packageId moduleName apiBase clsName : Str)
    (ms : List ApiMethod) (acc : IndexAcc) :
    ms.foldl (processMethod packageId moduleName apiBase clsName) acc =
      (acc.1 ++ ms.map (methodSearchEntry packageId moduleName apiBase clsName),
       acc.2 ++ ms.map (fun meth => (clsName ++ '.' :: meth.name,
         methodCrossrefEntry packageId moduleName apiBase clsName meth))) := by
  induction ms generalizing acc with
  | nil => simp
  | cons m ms ih => simp [processMethod, ih]

theorem foldl_processFunction (packageId moduleName apiBase : Str)
    (fs : List ApiFunction) (acc : IndexAcc) :
    fs.foldl (processFunction packageId moduleName apiBase) acc =
      (acc.1 ++ fs.map (functionSearchEntry packageId moduleName apiBase),
       acc.2 ++ fs.flatMap (fun func =>
         [(func.name, functionCrossrefEntry packageId moduleName apiBase func),
          (moduleName ++ '.' :: func.name,
           functionCrossrefEntry packageId moduleName apiBase func)])) := by
  induction fs generalizing acc with
  | nil => simp
  | cons f fs ih => simp [processFunction, ih]

theorem foldl_processClass (packageId moduleName apiBase : Str)
    (cs : List ApiClass) (acc : IndexAcc) :
    cs.foldl (processClass packageId moduleName apiBase) acc =
      (acc.1 ++ cs.flatMap (classSearchEntries packageId moduleName apiBase),
       acc.2 ++ cs.flatMap (classCrossrefWrites packageId moduleName apiBase)) := by
  induction cs generalizing acc with
  | nil => simp
  | cons c cs ih =>
    simp only [List.foldl_cons, processClass, foldl_processMethod, ih]
    simp [classSearchEntries, classCrossrefWrites, List.append_assoc]

theorem foldl_processModule (packageId apiBase : Str) (ms : List ApiModule)
    (acc : IndexAcc) :
    ms.foldl (processModule packageId apiBase) acc =
      (acc.1 ++ ms.flatMap (moduleSearchEntries packageId apiBase),
       acc.2 ++ ms.flatMap (moduleCrossrefWrites packageId apiBase)) := by
  induction ms generalizing acc with
  | nil => simp
  | cons m ms ih =>
    simp only [List.foldl_cons, processModule, foldl_processClass, foldl_processFunction, ih]
    simp [moduleSearchEntries, moduleCrossrefWrites, List.append_assoc]

theorem generate_version_indexes_eq (packageId tag : Str)
    (api : Option (List ApiModule)) (man : Option (List Notebook)) :
    generate_version_indexes packageId tag api man =
      ((api.getD []).flatMap (moduleSearchEntries packageId (apiBasePath packageId tag)) ++
         (man.getD []).map (exampleSearchEntry packageId (examplesBasePath packageId tag)),
       (api.getD []).flatMap (moduleCrossrefWrites packageId (apiBasePath packageId tag))) := by
  cases api <;> cases man <;>
    simp [generate_version_indexes, foldl_processModule]

theorem strEq_class_module : (str "class" == str "module") = false := by decide

theorem strEq_class_method : (str "class" == str "method") = false := by decide

theorem strEq_method_module : (str "method" == str "module") = false := by decide

theorem strEq_function_module : (str "function" == str "module") = false := by decide

theorem strEq_function_method : (str "function" == str "method") = false := by decide

theorem crossrefLookup_foldl_isSome (k : Str) (w : List (Str × CrossrefEntry))
    (acc : Option CrossrefEntry) :
    (w.foldl (fun acc x => if x.1 == k then some x.2 else acc) acc).isSome
      = (acc.isSome || w.any (fun x => x.1 == k)) := by
  induction w generalizing acc with
  | nil => simp
  | cons x xs ih =>
    simp only [List.foldl_cons, List.any_cons]
    rw [ih]
    by_cases h : (x.1 == k) = true <;> simp [h]

theorem crossrefLookup_isSome_of_mem {k : Str} {v : CrossrefEntry}
    {w : List (Str × CrossrefEntry)} (h : (k, v) ∈ w) :
    (crossrefLookup w k).isSome := by
  rw [crossrefLookup, crossrefLookup_foldl_isSome]
  simp only [Option.isSome_none, Bool.false_or, List.any_eq_true]
  exact ⟨(k, v), h, by simp⟩

/-- C4: the search index lists, for each module in order, one module entry,
then per class one class entry followed by its method entries, then one entry
per module function; after all modules, one entry per example notebook.  In
particular a module with one class Foo with methods step and reset yields the
module entry followed by exactly class Foo, method Foo.step, method Foo.reset
in that order. -/
theorem c4_search_index_order (packageId tag : Str)
    (api : Option (List ApiModule)) (man : Option (List Notebook)) :
    ((generate_version_indexes packageId tag api man).1 =
      (api.getD []).flatMap (moduleSearchEntries packageId (apiBasePath packageId tag)) ++
        (man.getD []).map (exampleSearchEntry packageId (examplesBasePath packageId tag))) ∧
    (generate_version_indexes (str "p") (str "v1.0.0")
        (some [⟨str "m", [], [⟨str "Foo", [],
          [⟨str "step", []⟩, ⟨str "reset", []⟩]⟩], []⟩]) (some [])).1 =
      [moduleSearchEntry (str "p") (apiBasePath (str "p") (str "v1.0.0"))
         ⟨str "m", [], [⟨str "Foo", [], [⟨str "step", []⟩, ⟨str "reset", []⟩]⟩], []⟩,
       classSearchEntry (str "p") (str "m") (apiBasePath (str "p") (str "v1.0.0"))
         ⟨str "Foo", [], [⟨str "step", []⟩, ⟨str "reset", []⟩]⟩,
       methodSearchEntry (str "p") (str "m") (apiBasePath (str "p") (str "v1.0.0"))
         (str "Foo") ⟨str "step", []⟩,
       methodSearchEntry (str "p") (str "m") (apiBasePath (str "p") (str "v1.0.0"))
         (str "Foo") ⟨str "reset", []⟩] := by
  constructor
  · rw [generate_version_indexes_eq]
  · decide

/-- C5: counterexample to the claim that the three crossref keys of a class
always reference the same path.  In package p, module A contains class B and
class A with a method B; the later method write overwrites key "A.B", so the
keys "B" and "A.B" of class B resolve to entries with different paths. -/
theorem c5_class_keys_counterexample :
    (⟨str "B", [], []⟩ : ApiClass) ∈
      (⟨str "A", [], [⟨str "B", [], []⟩, ⟨str "A", [], [⟨str "B", []⟩]⟩], []⟩ :
        ApiModule).classes ∧
    Option.map CrossrefEntry.path
        (crossrefLookup (generate_version_indexes (str "p") (str "v1.0.0")
          (some [⟨str "A", [], [⟨str "B", [], []⟩, ⟨str "A", [], [⟨str "B", []⟩]⟩], []⟩])
          none).2 (str "B"))
      = some (str "p/v1.0.0/api#B") ∧
    Option.map CrossrefEntry.path
        (crossrefLookup (generate_version_indexes (str "p") (str "v1.0.0")
          (some [⟨str "A", [], [⟨str "B", [], []⟩, ⟨str "A", [], [⟨str "B", []⟩]⟩], []⟩])
          none).2 (str "A.B"))
      = some (str "p/v1.0.0/api#A.B") ∧
    str "p/v1.0.0/api#B" ≠ str "p/v1.0.0/api#A.B" := by
  decide

/-- C5 (amended): for every class C in module M of package P in the API
document, the crossref write sequence registers the keys C, "M.C" and "P.C",
all with the class's own entry (whose path is the class's API anchor path),
and all three keys are present in the finished mapping; a later-processed
entity may overwrite the value stored at such a key (last-write-wins). -/
theorem c5_class_crossref_keys (packageId tag : Str)
    (api : Option (List ApiModule)) (man : Option (List Notebook))
    (m : ApiModule) (cls : ApiClass)
    (hm : m ∈ api.getD []) (hc : cls ∈ m.classes) :
    ((cls.name, classCrossrefEntry packageId m.name (apiBasePath packageId tag) cls)
        ∈ (generate_version_indexes packageId tag api man).2 ∧
      (crossrefLookup (generate_version_indexes packageId tag api man).2 cls.name).isSome) ∧
    ((m.name ++ '.' :: cls.name,
        classCrossrefEntry packageId m.name (apiBasePath packageId tag) cls)
        ∈ (generate_version_indexes packageId tag api man).2 ∧
      (crossrefLookup (generate_version_indexes packageId tag api man).2
        (m.name ++ '.' :: cls.name)).isSome) ∧
    ((packageId ++ '.' :: cls.name,
        classCrossrefEntry packageId m.name (apiBasePath packageId tag) cls)
        ∈ (generate_version_indexes packageId tag api man).2 ∧
      (crossrefLookup (generate_version_indexes packageId tag api man).2
        (packageId ++ '.' :: cls.name)).isSome) := by
  have h2 : (generate_version_indexes packageId tag api man).2
      = (api.getD []).flatMap (moduleCrossrefWrites packageId (apiBasePath packageId tag)) := by
    rw [generate_version_indexes_eq]
  rw [h2]
  have hmem : ∀ w ∈ classCrossrefWrites packageId m.name (apiBasePath packageId tag) cls,
      w ∈ (api.getD []).flatMap (moduleCrossrefWrites packageId (apiBasePath packageId tag)) := by
    intro w hw
    refine List.mem_flatMap.mpr ⟨m, hm, ?_⟩
    rw [moduleCrossrefWrites]
    refine List.mem_cons.mpr (Or.inr (List.mem_append.mpr (Or.inl ?_)))
    exact List.mem_flatMap.mpr ⟨cls, hc, hw⟩
  have k1 := hmem (cls.name, classCrossrefEntry packageId m.name (apiBasePath packageId tag) cls)
    (by simp [classCrossrefWrites])
  have k2 := hmem (m.name ++ '.' :: cls.name,
      classCrossrefEntry packageId m.name (apiBasePath packageId tag) cls)
    (by simp [classCrossrefWrites])
  have k3 := hmem (packageId ++ '.' :: cls.name,
      classCrossrefEntry packageId m.name (apiBasePath packageId tag) cls)
    (by simp [classCrossrefWrites])
  exact ⟨⟨k1, crossrefLookup_isSome_of_mem k1⟩, ⟨k2, crossrefLookup_isSome_of_mem k2⟩,
    ⟨k3, crossrefLookup_isSome_of_mem k3⟩⟩

/-- C5 witness: concrete instance of the amended crossref-key property. -/
theorem c5_class_crossref_keys_witness :
    ((str "Foo", classCrossrefEntry (str "p") (str "m")
        (apiBasePath (str "p") (str "v1.0.0")) ⟨str "Foo", [], []⟩)
        ∈ (generate_version_indexes (str "p") (str "v1.0.0")
          (some [⟨str "m", [], [⟨str "Foo", [], []⟩], []⟩]) none).2 ∧
      (crossrefLookup (generate_version_indexes (str "p") (str "v1.0.0")
          (some [⟨str "m", [], [⟨str "Foo", [], []⟩], []⟩]) none).2 (str "Foo")).isSome) ∧
    ((str "m" ++ '.' :: str "Foo", classCrossrefEntry (str "p") (str "m")
        (apiBasePath (str "p") (str "v1.0.0")) ⟨str "Foo", [], []⟩)
        ∈ (generate_version_indexes (str "p") (str "v1.0.0")
          (some [⟨str "m", [], [⟨str "Foo", [], []⟩], []⟩]) none).2 ∧
      (crossrefLookup (generate_version_indexes (str "p") (str "v1.0.0")
          (some [⟨str "m", [], [⟨str "Foo", [], []⟩], []⟩]) none).2
        (str "m" ++ '.' :: str "Foo")).isSome) ∧
    ((str "p" ++ '.' :: str "Foo", classCrossrefEntry (str "p") (str "m")
        (apiBasePath (str "p") (str "v1.0.0")) ⟨str "Foo", [], []⟩)
        ∈ (generate_version_indexes (str "p") (str "v1.0.0")
          (some [⟨str "m", [], [⟨str "Foo", [], []⟩], []⟩]) none).2 ∧
      (crossrefLookup (generate_version_indexes (str "p") (str "v1.0.0")
          (some [⟨str "m", [], [⟨str "Foo", [], []⟩], []⟩]) none).2
        (str "p" ++ '.' :: str "Foo")).isSome) :=
  c5_class_crossref_keys (str "p") (str "v1.0.0")
    (some [⟨str "m", [], [⟨str "Foo", [], []⟩], []⟩]) none
    ⟨str "m", [], [⟨str "Foo", [], []⟩], []⟩ ⟨str "Foo", [], []⟩
    (by decide) (by decide)

/-- C6: counterexample to reconstructing an API entry's path from only its
packageId, moduleName and name fields: two classes A and B in the same module
both have a method named step, producing two method entries that agree on
those three fields (and on type) but have different paths. -/
theorem c6_path_not_from_three_fields :
    methodSearchEntry (str "p") (str "m") (apiBasePath (str "p") (str "v1.0.0"))
        (str "A") ⟨str "step", []⟩ ∈
      (generate_version_indexes (str "p") (str "v1.0.0")
        (some [⟨str "m", [],
          [⟨str "A", [], [⟨str "step", []⟩]⟩, ⟨str "B", [], [⟨str "step", []⟩]⟩], []⟩])
        none).1 ∧
    methodSearchEntry (str "p") (str "m") (apiBasePath (str "p") (str "v1.0.0"))
        (str "B") ⟨str "step", []⟩ ∈
      (generate_version_indexes (str "p") (str "v1.0.0")
        (some [⟨str "m", [],
          [⟨str "A", [], [⟨str "step", []⟩]⟩, ⟨str "B", [], [⟨str "step", []⟩]⟩], []⟩])
        none).1 ∧
    (methodSearchEntry (str "p") (str "m") (apiBasePath (str "p") (str "v1.0.0"))
        (str "A") ⟨str "step", []⟩).packageId =
      (methodSearchEntry (str "p") (str "m") (apiBasePath (str "p") (str "v1.0.0"))
        (str "B") ⟨str "step", []⟩).packageId ∧
    (methodSearchEntry (str "p") (str "m") (apiBasePath (str "p") (str "v1.0.0"))
        (str "A") ⟨str "step", []⟩).moduleName =
      (methodSearchEntry (str "p") (str "m") (apiBasePath (str "p") (str "v1.0.0"))
        (str "B") ⟨str "step", []⟩).moduleName ∧
    (methodSearchEntry (str "p") (str "m") (apiBasePath (str "p") (str "v1.0.0"))
        (str "A") ⟨str "step", []⟩).name =
      (methodSearchEntry (str "p") (str "m") (apiBasePath (str "p") (str "v1.0.0"))
        (str "B") ⟨str "step", []⟩).name ∧
    (methodSearchEntry (str "p") (str "m") (apiBasePath (str "p") (str "v1.0.0"))
        (str "A") ⟨str "step", []⟩).path ≠
      (methodSearchEntry (str "p") (str "m") (apiBasePath (str "p") (str "v1.0.0"))
        (str "B") ⟨str "step", []⟩).path := by
  decide

/-- C6 (amended): every API entry (type not "example") of the search index has
a path equal to the reconstruction from the entry's own fields — packageId,
moduleName, name, type and parentClass — and the anchor rule: module anchors
replace '.' with '-', method anchors are ClassName.method_name, and the path
shape is packageId/tag/api#anchor. -/
theorem c6_path_reconstructible (packageId tag : Str)
    (api : Option (List ApiModule)) (man : Option (List Notebook)) (e : SearchEntry)
    (he : e ∈ (generate_version_indexes packageId tag api man).1)
    (hty : e.type ≠ str "example") :
    e.path = reconstructApiPath tag e := by
  have h1 : (generate_version_indexes packageId tag api man).1
      = (api.getD []).flatMap (moduleSearchEntries packageId (apiBasePath packageId tag)) ++
        (man.getD []).map (exampleSearchEntry packageId (examplesBasePath packageId tag)) := by
    rw [generate_version_indexes_eq]
  rw [h1, List.mem_append] at he
  rcases he with he | he
  · rw [List.mem_flatMap] at he
    obtain ⟨m, hm, he⟩ := he
    rw [moduleSearchEntries, List.mem_cons] at he
    rcases he with he | he
    · subst he
      simp [moduleSearchEntry, reconstructApiPath]
    · rw [List.mem_append] at he
      rcases he with he | he
      · rw [List.mem_flatMap] at he
        obtain ⟨cls, hcls, he⟩ := he
        rw [classSearchEntries, List.mem_cons] at he
        rcases he with he | he
        · subst he
          simp [classSearchEntry, reconstructApiPath, strEq_class_module, strEq_class_method]
        · rw [List.mem_map] at he
          obtain ⟨meth, hmeth, he⟩ := he
          subst he
          simp [methodSearchEntry, reconstructApiPath, strEq_method_module]
      · rw [List.mem_map] at he
        obtain ⟨func, hfunc, he⟩ := he
        subst he
        simp [functionSearchEntry, reconstructApiPath, strEq_function_module,
          strEq_function_method]
  · rw [List.mem_map] at he
    obtain ⟨nb, hnb, he⟩ := he
    subst he
    exact absurd rfl hty

/-- C6 witness: concrete instance of the amended path-reconstruction property. -/
theorem c6_path_reconstructible_witness :
    (moduleSearchEntry (str "p") (apiBasePath (str "p") (str "v1.0.0"))
        ⟨str "m", [], [], []⟩).path
      = reconstructApiPath (str "v1.0.0")
          (moduleSearchEntry (str "p") (apiBasePath (str "p") (str "v1.0.0"))
            ⟨str "m", [], [], []⟩) :=
  c6_path_reconstructible (str "p") (str "v1.0.0") (some [⟨str "m", [], [], []⟩]) none
    (moduleSearchEntry (str "p") (apiBasePath (str "p") (str "v1.0.0"))
      ⟨str "m", [], [], []⟩)
    (by decide) (by decide)

/-- C7: should_regenerate_embeddings returns true exactly when
search-index.json exists and either embeddings-index.json does not exist or
the search index's modification time is strictly newer; in particular it is
false whenever the search index is absent, and false when both exist and the
embeddings file is at least as new. -/
theorem c7_should_regenerate_iff (d : VersionDirStat) :
    should_regenerate_embeddings d = true ↔
      ∃ searchMtime, d.searchIndexMtime = some searchMtime ∧
        (d.embeddingsIndexMtime = none ∨
          ∃ embMtime, d.embeddingsIndexMtime = some embMtime ∧ embMtime < searchMtime) := by
  obtain ⟨s, e⟩ := d
  cases s <;> cases e <;> simp [should_regenerate_embeddings]

/-- C8: rebuilding a version from the same source content is deterministic and
idempotent at the index level: running the file-producing part of
build_version a second time over the state left by the first run yields the
same search-index.json and crossref-index.json contents. -/
theorem c8_rebuild_deterministic (packageId tag : Str)
    (categoryOrder : List (Str × Nat)) (src : SourceContent) (st : DirState) :
    (build_version_files packageId tag categoryOrder src
        (build_version_files packageId tag categoryOrder src st)).searchIndex
      = (build_version_files packageId tag categoryOrder src st).searchIndex ∧
    (build_version_files packageId tag categoryOrder src
        (build_version_files packageId tag categoryOrder src st)).crossref
      = (build_version_files packageId tag categoryOrder src st).crossref := by
  by_cases h : src.apiModules.isEmpty <;>
    simp [build_version_files, generate_version_indexes_write, h]

/-- C9: after the per-tag loop of build_package over its toBuild list, the
source repository is back on its main branch for every combination of per-tag
outcomes (checkout failures and caught stage errors included). -/
theorem c9_repo_restored_to_main (toBuild : List Str) (outcomes : Str → StageOutcome)
    (st : RepoState) :
    (build_package toBuild outcomes false st).1.branch = str "main" := by
  simp [build_package, checkout_main]

/-- C10: when a version directory has neither api.json nor manifest.json,
index generation still writes both files: an empty search index and an empty
crossref mapping. -/
theorem c10_indexes_written_when_inputs_missing (packageId tag : Str) (st : DirState)
    (hapi : st.api = none) (hman : st.manifest = none) :
    (generate_version_indexes_write packageId tag st).searchIndex = some [] ∧
    (generate_version_indexes_write packageId tag st).crossref = some [] := by
  simp [generate_version_indexes_write, generate_version_indexes, hapi, hman]

/-- C10 witness: concrete instance on a fully empty version directory. -/
theorem c10_indexes_written_witness :
    (generate_version_indexes_write (str "p") (str "v1.0.0")
        ⟨none, none, none, none⟩).searchIndex = some [] ∧
    (generate_version_indexes_write (str "p") (str "v1.0.0")
        ⟨none, none, none, none⟩).crossref = some [] :=
  c10_indexes_written_when_inputs_missing (str "p") (str "v1.0.0")
    ⟨none, none, none, none⟩ rfl rfl
